import Mathlib

/-!
Shallow embedding of the amap-2drender adapter classes (Marker, Line, Grid,
Text) and their utility functions, together with theorems checking the
natural-language specification against this embedding.

Conventions of the embedding:
- JS numbers are modelled as rationals.
- A user callback slot is modelled as an Option over an opaque callback
  identifier; storing no function is represented by Option.none (matching JS,
  where an omitted option destructures to undefined and the guards
  `typeof f === choice of function` / truthiness both test presence).
- The host map object is shared state the adapter never replaces; it is
  modelled as an immutable reference id in the adapter state, while map
  methods invoked for their effects (setDefaultCursor, on, off, setMap) are
  modelled as emitted effect values.
- The rendering-library primitive (2drender) is an external collaborator: its
  findByPosition lookup results are passed in as arguments, and its
  configure/draw calls are emitted as effect values.
- The DOM canvas is modelled with its numeric backing-store dimensions plus
  assignment counters, because assigning canvas.width or canvas.height is an
  observable reallocation (it clears the raster) even when the value is
  unchanged. A freshly created canvas has the DOM default size 300 by 150.
- Fallible JS code (property access on undefined) is modelled with Except.
-/

namespace Amap2DRender

/-- A canvas pixel position, the ordered pair returned as x y. -/
abbrev Pos : Type := ℚ × ℚ

/-- A geographic coordinate as accepted by coordinateTransformation: either an
object with lng and lat fields or a two-element array. -/
inductive Coord : Type
  | obj (lng lat : ℚ)
  | arr (lng lat : ℚ)
deriving DecidableEq, Repr

/-- A host-map projection at the current pan and zoom: the composition of
AMap.LngLat and map.lngLatToContainer, taking lng and lat to container x y. -/
abbrev Projection : Type := ℚ → ℚ → Pos

/-- Marker.coordinateTransformation (identical in Line, Grid and Text):
destructure lng and lat from either coordinate form and project them. -/
def coordinateTransformation (proj : Projection) : Coord → Pos
  | Coord.obj lng lat => proj lng lat
  | Coord.arr lng lat => proj lng lat

/-- utils getDPR: return window.devicePixelRatio with falsy values (absent
property, or the number 0) defaulting to 1. -/
def getDPR (devicePixelRatio : Option ℚ) : ℚ :=
  match devicePixelRatio with
  | none => 1
  | some v => if v = 0 then 1 else v

/-- A DOM canvas: backing-store size, CSS style size, and counters of the
assignments made to the backing-store dimensions (each such assignment
reallocates and clears the raster, even if the value is unchanged). -/
structure Canvas : Type where
  width : ℚ
  height : ℚ
  styleWidth : Option ℚ
  styleHeight : Option ℚ
  widthAssignments : ℕ
  heightAssignments : ℕ
deriving DecidableEq, Repr

/-- document.createElement canvas: DOM default backing size is 300 by 150,
no CSS size set, no assignments performed yet. -/
def Canvas.create : Canvas :=
  { width := 300, height := 150, styleWidth := none, styleHeight := none
    widthAssignments := 0, heightAssignments := 0 }

/-- Assignment canvas.width = w: updates the value and counts a reallocation. -/
def Canvas.setBackingWidth (c : Canvas) (w : ℚ) : Canvas :=
  { c with width := w, widthAssignments := c.widthAssignments + 1 }

/-- Assignment canvas.height = h: updates the value and counts a reallocation. -/
def Canvas.setBackingHeight (c : Canvas) (h : ℚ) : Canvas :=
  { c with height := h, heightAssignments := c.heightAssignments + 1 }

/-- Assignment canvas.style.width (CSS logical size; no reallocation). -/
def Canvas.setStyleWidth (c : Canvas) (w : ℚ) : Canvas :=
  { c with styleWidth := some w }

/-- Assignment canvas.style.height (CSS logical size; no reallocation). -/
def Canvas.setStyleHeight (c : Canvas) (h : ℚ) : Canvas :=
  { c with styleHeight := some h }

/-- A marker dataset item: an id standing for the presentation attributes
(icon, size, rotation, anchor), an optional geographic location and an
optional pre-computed pixel position. -/
structure MarkerItem : Type where
  id : ℕ
  location : Option Coord
  position : Option Pos
deriving DecidableEq, Repr

/-- Map event names the adapters subscribe to. -/
inductive MapEvent : Type
  | click
  | dblclick
  | mousemove
  | dragend
  | dragstart
  | touchend
  | touchstart
deriving DecidableEq, Repr

/-- Hover relay outputs: invocations of the user's onMouseOver and onMouseOut
callbacks, each carrying the item list passed to the callback. -/
inductive HoverEvent : Type
  | mouseOver (items : List MarkerItem)
  | mouseOut (items : List MarkerItem)
deriving DecidableEq, Repr

/-- Cursor-style effects: map.setDefaultCursor with the pointer style, or
map.setDefaultCursor with no argument (restore the host default). -/
inductive CursorEffect : Type
  | setPointer
  | setDefault
deriving DecidableEq, Repr

/-- Teardown effects: customLayer.setMap null, and map.off for one event. -/
inductive TeardownEffect : Type
  | detachLayer
  | off (e : MapEvent)
deriving DecidableEq, Repr

/-- The event removed by an off effect, if the effect is an off. -/
def TeardownEffect.offEvent : TeardownEffect → Option MapEvent
  | TeardownEffect.detachLayer => none
  | TeardownEffect.off e => some e

/-- The mutable options accepted by Marker's constructor and its config call
(src Marker index.js). A none field is an omitted property (or one supplied
as undefined, indistinguishable after destructuring). Layer-only options
(opacity, zIndex, zooms) are consumed by the custom layer, not stored. -/
structure MarkerProps : Type where
  data : Option (List MarkerItem) := none
  height : Option ℚ := none
  width : Option ℚ := none
  onClick : Option ℕ := none
  onDoubleClick : Option ℕ := none
  onMouseOut : Option ℕ := none
  onMouseOver : Option ℕ := none
deriving DecidableEq, Repr

/-- Instance state of the current Marker adapter revision. -/
structure MarkerState : Type where
  dpr : ℚ
  mapRef : ℕ
  canvas : Canvas
  data : List MarkerItem
  onClick : Option ℕ
  onDoubleClick : Option ℕ
  onMouseOut : Option ℕ
  onMouseOver : Option ℕ
  hoverMarkers : List MarkerItem
  hoverStyleMarkers : List MarkerItem
  customLayer : Option ℕ
deriving DecidableEq, Repr

namespace Marker

/-- Marker.config (current revision, src Marker index.js lines 104 to 154):
destructure props with defaults (empty data, zero sizes, undefined
callbacks), replace the stored dataset and callbacks, reset both hover sets
to empty lists, then resize the canvas backing store, scaled by dpr, only
when the scaled value differs from the canvas's current dimension. -/
def config (s : MarkerState) (p : MarkerProps) : MarkerState :=
  let data := p.data.getD []
  let height := p.height.getD 0
  let width := p.width.getD 0
  let s1 : MarkerState :=
    { s with
      data := data
      onClick := p.onClick
      onDoubleClick := p.onDoubleClick
      onMouseOut := p.onMouseOut
      onMouseOver := p.onMouseOver
      hoverMarkers := []
      hoverStyleMarkers := [] }
  let s2 : MarkerState :=
    if height * s1.dpr ≠ s1.canvas.height then
      { s1 with canvas := (s1.canvas.setBackingHeight (height * s1.dpr)).setStyleHeight height }
    else s1
  let s3 : MarkerState :=
    if width * s2.dpr ≠ s2.canvas.width then
      { s2 with canvas := (s2.canvas.setBackingWidth (width * s2.dpr)).setStyleWidth width }
    else s2
  s3

/-- The map events hooked by Marker's constructor (lines 58 to 60). -/
def constructorOns : List MapEvent :=
  [MapEvent.click, MapEvent.dblclick, MapEvent.mousemove]

/-- Marker's constructor: capture the device pixel ratio from the environment
once, store the immutable host map reference, hook the map events, create the
canvas, and pass the mutable options to config. The AMap CustomLayer plugin
loads asynchronously, so customLayer is still unset when construction
returns. Also returns the list of hooked map events. -/
def construct (devicePixelRatio : Option ℚ) (mapRef : ℕ) (p : MarkerProps) :
    MarkerState × List MapEvent :=
  let s0 : MarkerState :=
    { dpr := getDPR devicePixelRatio
      mapRef := mapRef
      canvas := Canvas.create
      data := []
      onClick := none
      onDoubleClick := none
      onMouseOut := none
      onMouseOver := none
      hoverMarkers := []
      hoverStyleMarkers := []
      customLayer := none }
  (config s0 p, constructorOns)

/-- customLayer.setMap null: dereferencing an undefined layer throws. -/
def layerSetMapNull (layer : Option ℕ) : Except String Unit :=
  match layer with
  | some _ => Except.ok ()
  | none => Except.error "TypeError: cannot call setMap of undefined"

/-- Marker.destroy (lines 159 to 171): detach the custom layer from the map,
guarded by a presence check because the asynchronous AMap CustomLayer load
may not have completed, then unhook the click, dblclick and mousemove
handlers. Returns the emitted effects; the adapter state is untouched. -/
def destroy (s : MarkerState) : Except String (List TeardownEffect × MarkerState) := do
  let detach ←
    if s.customLayer.isSome then do
      let _ ← layerSetMapNull s.customLayer
      pure [TeardownEffect.detachLayer]
    else
      pure []
  pure (detach ++
    [TeardownEffect.off MapEvent.click, TeardownEffect.off MapEvent.dblclick,
      TeardownEffect.off MapEvent.mousemove], s)

/-- Marker.handleClick (lines 176 to 184): if onClick is a function, look up
the markers under the click pixel; if that list is non-empty invoke onClick
with it. The argument found is the findByPosition result the rendering
library would return for the event pixel. Returns the invocation payload, if
any, and whether the lookup ran. -/
def handleClick (s : MarkerState) (found : List MarkerItem) :
    Option (List MarkerItem) × Bool :=
  if s.onClick.isSome then
    (if found.length ≠ 0 then some found else none, true)
  else
    (none, false)

/-- Marker.handleDoubleClick (lines 189 to 197): same shape as handleClick,
for the onDoubleClick callback. -/
def handleDoubleClick (s : MarkerState) (found : List MarkerItem) :
    Option (List MarkerItem) × Bool :=
  if s.onDoubleClick.isSome then
    (if found.length ≠ 0 then some found else none, true)
  else
    (none, false)

/-- Marker.handleMouseHover (lines 202 to 244): when at least one of
onMouseOver and onMouseOut is a function, look up the markers under the
pointer and compare them with the stored hoverMarkers: a longer list fires
onMouseOver, a shorter one fires onMouseOut, an equal-length list failing
the lodash isEqual deep-equality check fires onMouseOut then onMouseOver,
and a deep-equal list fires nothing; each invocation carries the new list
and is guarded by its callback's presence; the stored set then becomes the
new list. Without either callback the lookup is skipped. Returns the fired
invocations in order, the updated state, and whether the lookup ran. -/
def handleMouseHover (s : MarkerState) (found : List MarkerItem) :
    List HoverEvent × MarkerState × Bool :=
  if s.onMouseOver.isSome || s.onMouseOut.isSome then
    let fired : List HoverEvent :=
      if found.length > s.hoverMarkers.length then
        if s.onMouseOver.isSome then [HoverEvent.mouseOver found] else []
      else if found.length < s.hoverMarkers.length then
        if s.onMouseOut.isSome then [HoverEvent.mouseOut found] else []
      else if found ≠ s.hoverMarkers then
        (if s.onMouseOut.isSome then [HoverEvent.mouseOut found] else []) ++
          (if s.onMouseOver.isSome then [HoverEvent.mouseOver found] else [])
      else []
    (fired, { s with hoverMarkers := found }, true)
  else
    ([], s, false)

/-- Marker.handleMouseHoverStyle (lines 249 to 277): when any of onClick,
onDoubleClick, onMouseOver and onMouseOut is a function, look up the markers
under the pointer; switch the map cursor to pointer when the stored
hoverStyleMarkers set is empty and the new one is not, restore the map
default cursor when the stored set is non-empty and the new one is empty,
then store the new set. Returns the cursor effects, the updated state, and
whether the lookup ran. -/
def handleMouseHoverStyle (s : MarkerState) (found : List MarkerItem) :
    List CursorEffect × MarkerState × Bool :=
  if s.onClick.isSome || s.onDoubleClick.isSome ||
      s.onMouseOver.isSome || s.onMouseOut.isSome then
    let toPointer : List CursorEffect :=
      if s.hoverStyleMarkers.length = 0 ∧ found.length > 0 then
        [CursorEffect.setPointer]
      else []
    let toDefault : List CursorEffect :=
      if s.hoverStyleMarkers.length > 0 ∧ found.length = 0 then
        [CursorEffect.setDefault]
      else []
    (toPointer ++ toDefault, { s with hoverStyleMarkers := found }, true)
  else
    ([], s, false)

/-- The per-item body of the data map inside Marker.internalRender (lines 313
to 336): position has priority over location; only when the item has no
position is coordinateTransformation invoked, once, on the item's location;
an item with neither position nor location throws (destructuring undefined).
Returns the item with its final position and the number of transform calls
made for this item. -/
def processItem (proj : Projection) (item : MarkerItem) :
    Except String (MarkerItem × ℕ) :=
  match item.position with
  | some _ => Except.ok (item, 0)
  | none =>
    match item.location with
    | some loc =>
        Except.ok ({ item with position := some (coordinateTransformation proj loc) }, 1)
    | none => Except.error "TypeError: cannot destructure undefined coordinates"

/-- The full data map of Marker.internalRender: process every dataset item in
order, also summing the number of coordinate-transform invocations. -/
def processData (proj : Projection) :
    List MarkerItem → Except String (List MarkerItem × ℕ)
  | [] => Except.ok ([], 0)
  | item :: rest => do
    let (it, n) ← processItem proj item
    let (its, m) ← processData proj rest
    pure (it :: its, n + m)

/-- Marker.internalRender (lines 295 to 342): clear the canvas by
self-assigning canvas.width (a reallocation that keeps the value), rescale
the context by dpr, configure the rendering primitive with the dataset whose
positions are recomputed by processData, and invoke its draw. Returns the
updated state, the item list handed to the primitive, and the total number
of coordinate-transform invocations. -/
def internalRender (s : MarkerState) (proj : Projection) :
    Except String (MarkerState × List MarkerItem × ℕ) := do
  let (items, n) ← processData proj s.data
  pure ({ s with canvas := s.canvas.setBackingWidth s.canvas.width }, items, n)

/-- Marker.render (lines 348 to 353): when props are supplied (not null or
undefined, the isNullVoid check) run config first, then internalRender. -/
def render (s : MarkerState) (props : Option MarkerProps) (proj : Projection) :
    Except String (MarkerState × List MarkerItem × ℕ) :=
  let s1 := match props with
    | some p => config s p
    | none => s
  internalRender s1 proj

end Marker

/-- The four outcomes of the hover-set comparison as section 4.5 of the spec
words it: new set strictly larger, strictly smaller, equal sizes with
different contents, or identical contents. This definition follows the
spec's words, for comparison with the source-derived handleMouseHover. -/
inductive HoverClass : Type
  | over
  | out
  | outThenOver
  | nothing
deriving DecidableEq, Repr

/-- The spec's hover-set-size-delta classification (section 4.5), following
the spec's words: compare the new hover set against the previous one by size
first and contents second. -/
def specHoverClass (prev next : List MarkerItem) : HoverClass :=
  if next.length > prev.length then HoverClass.over
  else if next.length < prev.length then HoverClass.out
  else if next ≠ prev then HoverClass.outThenOver
  else HoverClass.nothing

/-- The callback invocations the spec's classification prescribes, with every
invocation point guarded by a presence check as section 7 of the spec
requires and both invocations carrying the new set. This definition follows
the spec's words. -/
def specHoverEvents (overReg outReg : Bool) (next : List MarkerItem) :
    HoverClass → List HoverEvent
  | HoverClass.over => if overReg then [HoverEvent.mouseOver next] else []
  | HoverClass.out => if outReg then [HoverEvent.mouseOut next] else []
  | HoverClass.outThenOver =>
      (if outReg then [HoverEvent.mouseOut next] else []) ++
        (if overReg then [HoverEvent.mouseOver next] else [])
  | HoverClass.nothing => []

/-- Modelled from the spec: the 2drender rendering library's findByPosition
(an external collaborator whose source is not part of this repository).
Per the spec and the propTypes documentation, it returns the items under the
given pixel with items appearing later in the configured dataset reported
first, because later items are drawn on top. The hit predicate stands for
the library's spatial test of one item against a pixel. -/
def findByPosition (hit : MarkerItem → Pos → Bool) (data : List MarkerItem)
    (pixel : Pos) : List MarkerItem :=
  (data.filter (fun item => hit item pixel)).reverse

/-- Instance state of the earlier Marker revision packed in src Marker
index.js after the first separator. Unlike the current revision it has no
dpr; its config compares the incoming sizes against this.height and
this.width, two properties no method of that revision ever assigns, so they
are permanently undefined, modelled as fields fixed at none. -/
structure MarkerLegacyState : Type where
  mapRef : ℕ
  canvas : Canvas
  data : List MarkerItem
  onClick : Option ℕ
  onDoubleClick : Option ℕ
  onMouseOut : Option ℕ
  onMouseOver : Option ℕ
  hoverMarkers : List MarkerItem
  hoverStyleMarkers : List MarkerItem
  heightField : Option ℚ
  widthField : Option ℚ
deriving DecidableEq, Repr

namespace MarkerLegacy

/-- Marker.config of the earlier revision (src Marker index.js lines 571 to
610): replace dataset and callbacks, reset the hover sets, then compare the
defaulted height against this.height and the defaulted width against
this.width before assigning the canvas backing dimensions. The revision
never writes this.height or this.width anywhere, so the comparison is
against undefined and the heightField and widthField stay none, exactly as
in the source. -/
def config (s : MarkerLegacyState) (p : MarkerProps) : MarkerLegacyState :=
  let height := p.height.getD 0
  let width := p.width.getD 0
  let s1 : MarkerLegacyState :=
    { s with
      data := p.data.getD []
      onClick := p.onClick
      onDoubleClick := p.onDoubleClick
      onMouseOut := p.onMouseOut
      onMouseOver := p.onMouseOver
      hoverMarkers := []
      hoverStyleMarkers := [] }
  let s2 : MarkerLegacyState :=
    if some height ≠ s1.heightField then
      { s1 with canvas := s1.canvas.setBackingHeight height }
    else s1
  let s3 : MarkerLegacyState :=
    if some width ≠ s2.widthField then
      { s2 with canvas := s2.canvas.setBackingWidth width }
    else s2
  s3

/-- A fresh instance of the earlier Marker revision before its constructor's
config call, with a newly created canvas. -/
def initial (mapRef : ℕ) : MarkerLegacyState :=
  { mapRef := mapRef
    canvas := Canvas.create
    data := []
    onClick := none
    onDoubleClick := none
    onMouseOut := none
    onMouseOver := none
    hoverMarkers := []
    hoverStyleMarkers := []
    heightField := none
    widthField := none }

end MarkerLegacy

/-- A grid dataset item: an id standing for the presentation attributes
(colors) plus the two corner coordinates. -/
structure GridItem : Type where
  id : ℕ
  topLeft : Coord
  bottomRight : Coord
deriving DecidableEq, Repr

/-- The record handed to the rendering primitive for one grid: origin pixel,
pixel width and pixel height derived from the two projected corners. -/
structure GridRenderItem : Type where
  id : ℕ
  origin : Pos
  width : ℚ
  height : ℚ
deriving DecidableEq, Repr

/-- The mutable options accepted by Grid's constructor and config. -/
structure GridProps : Type where
  data : Option (List GridItem) := none
  height : Option ℚ := none
  width : Option ℚ := none
  onClick : Option ℕ := none
  onMouseOut : Option ℕ := none
  onMouseOver : Option ℕ := none
deriving DecidableEq, Repr

/-- The host map's reported view: center coordinate and zoom level. -/
structure MapView : Type where
  centerLng : ℚ
  centerLat : ℚ
  zoom : ℚ
deriving DecidableEq, Repr

/-- Instance state of the Grid adapter (src Grid index.js). heightField and
widthField are this.height and this.width, memorised by config; they start
undefined. previousCenter and previousZoom are memorised by internalRender
after each completed render and start undefined. -/
structure GridState : Type where
  dpr : ℚ
  mapRef : ℕ
  canvas : Canvas
  daemonCanvas : Canvas
  data : List GridItem
  onClick : Option ℕ
  onMouseOut : Option ℕ
  onMouseOver : Option ℕ
  hoverGrids : List GridItem
  hoverStyleGrids : List GridItem
  heightField : Option ℚ
  widthField : Option ℚ
  isDragging : Bool
  previousCenter : Option (ℚ × ℚ)
  previousZoom : Option ℚ
  customLayer : Option ℕ
deriving DecidableEq, Repr

/-- Effects emitted by Grid.internalRender towards the canvases and the
rendering primitive. -/
inductive GridEffect : Type
  | moveCanvas (deltaX deltaY : ℚ)
  | primConfig (items : List GridRenderItem)
  | draw
  | blit
deriving DecidableEq, Repr

namespace Grid

/-- Grid.config (src Grid index.js lines 136 to 168): destructure props with
defaults (empty data, zero sizes, undefined callbacks), replace the stored
dataset and callbacks, and memorise this.height and this.width and update
the canvas CSS size only when the defaulted value differs from the memorised
one. The hover sets are not touched here; Grid initialises them in its
constructor. -/
def config (s : GridState) (p : GridProps) : GridState :=
  let height := p.height.getD 0
  let width := p.width.getD 0
  let s1 : GridState :=
    { s with
      data := p.data.getD []
      onClick := p.onClick
      onMouseOut := p.onMouseOut
      onMouseOver := p.onMouseOver }
  let s2 : GridState :=
    if some height ≠ s1.heightField then
      { s1 with heightField := some height, canvas := s1.canvas.setStyleHeight height }
    else s1
  let s3 : GridState :=
    if some width ≠ s2.widthField then
      { s2 with widthField := some width, canvas := s2.canvas.setStyleWidth width }
    else s2
  s3

/-- The map events hooked by Grid's constructor (lines 68 to 76). -/
def constructorOns : List MapEvent :=
  [MapEvent.click, MapEvent.mousemove, MapEvent.dragend, MapEvent.dragstart,
    MapEvent.touchend, MapEvent.touchstart]

/-- Grid.handleClick (lines 193 to 201): if this.onClick is truthy, look up
the grids under the click pixel; if the list is non-empty invoke onClick
with it. -/
def handleClick (s : GridState) (found : List GridItem) :
    Option (List GridItem) × Bool :=
  if s.onClick.isSome then
    (if found.length ≠ 0 then some found else none, true)
  else
    (none, false)

/-- The per-item body of the data map inside Grid.internalRender (lines 367
to 388): project both corners and derive origin, width and height. -/
def processItem (proj : Projection) (g : GridItem) : GridRenderItem :=
  let p1 := coordinateTransformation proj g.bottomRight
  let p0 := coordinateTransformation proj g.topLeft
  { id := g.id, origin := p0, width := p1.1 - p0.1, height := p1.2 - p0.2 }

/-- Grid.internalRender (lines 310 to 417): return immediately with no effect
while isDragging is set. Otherwise, when the reported zoom equals the
memorised previous zoom (a pan, not a zoom), translate the visible canvas by
the projected pan delta and target the daemon canvas; configure the
primitive with the projected dataset, draw, and on the pan path blit the
daemon canvas back onto the visible canvas; finally memorise the current
center and zoom. previousCenter and previousZoom are always memorised
together, so the getD fallback for previousCenter is never reached when the
zoom comparison succeeds. -/
def internalRender (s : GridState) (proj : Projection) (view : MapView) :
    GridState × List GridEffect :=
  if s.isDragging then (s, [])
  else
    let sameZoom : Bool := s.previousZoom = some view.zoom
    let nextPx := proj view.centerLng view.centerLat
    let prevCenter := s.previousCenter.getD (0, 0)
    let prevPx := proj prevCenter.1 prevCenter.2
    let moveEffects : List GridEffect :=
      if sameZoom then
        [GridEffect.moveCanvas (-(nextPx.1 - prevPx.1)) (-(nextPx.2 - prevPx.2))]
      else []
    let s1 : GridState :=
      if sameZoom then
        { s with canvas := s.canvas.setBackingWidth s.canvas.width }
      else s
    let items := s.data.map (processItem proj)
    let blitCanvas : Canvas :=
      (s1.canvas.setBackingWidth s1.daemonCanvas.width).setBackingHeight s1.daemonCanvas.height
    let s2 : GridState :=
      if sameZoom then { s1 with canvas := blitCanvas } else s1
    let effects := moveEffects ++ [GridEffect.primConfig items, GridEffect.draw] ++
      (if sameZoom then [GridEffect.blit] else [])
    ({ s2 with
        previousCenter := some (view.centerLng, view.centerLat)
        previousZoom := some view.zoom }, effects)

/-- Grid.handleDragEnd (lines 203 to 205): clear the dragging flag. -/
def handleDragEnd (s : GridState) : GridState :=
  { s with isDragging := false }

/-- Grid.handleDragStart (lines 210 to 212): set the dragging flag. -/
def handleDragStart (s : GridState) : GridState :=
  { s with isDragging := true }

end Grid

/-- Map events relevant to Grid's render suppression. dragstart and
touchstart are both hooked to handleDragStart, dragend and touchend to
handleDragEnd (constructor lines 73 to 76); render is the custom layer
invoking internalRender with the map's current view. -/
inductive GridEvent : Type
  | dragStart
  | dragEnd
  | touchStart
  | touchEnd
  | render (view : MapView)
deriving DecidableEq, Repr

namespace Grid

/-- Dispatch one host-map event to the Grid handler it is hooked to. -/
def step (proj : Projection) (s : GridState) : GridEvent → GridState × List GridEffect
  | GridEvent.dragStart => (handleDragStart s, [])
  | GridEvent.touchStart => (handleDragStart s, [])
  | GridEvent.dragEnd => (handleDragEnd s, [])
  | GridEvent.touchEnd => (handleDragEnd s, [])
  | GridEvent.render view => internalRender s proj view

/-- The Grid state reached after a sequence of host-map events. -/
def stateAfter (proj : Projection) (s : GridState) : List GridEvent → GridState
  | [] => s
  | e :: es => stateAfter proj (step proj s e).1 es

end Grid

/-- Whether the map reports an active drag or touch gesture after a sequence
of events, starting from flag b: the last drag or touch boundary event seen
decides, render events do not change it. -/
def dragActive (b : Bool) : List GridEvent → Bool
  | [] => b
  | GridEvent.dragStart :: es => dragActive true es
  | GridEvent.touchStart :: es => dragActive true es
  | GridEvent.dragEnd :: es => dragActive false es
  | GridEvent.touchEnd :: es => dragActive false es
  | GridEvent.render _ :: es => dragActive b es

/-- A text dataset item: an id standing for the presentation attributes
(content, color, font, anchor), an optional geographic location and an
optional pre-computed pixel position. -/
structure TextItem : Type where
  id : ℕ
  location : Option Coord
  position : Option Pos
deriving DecidableEq, Repr

/-- Instance state of the Text adapter (src Text index.js). Text has no
onDoubleClick option. The source's handleMouseHoverStyle assigns the new
lookup result to this.hoverStyleTtexts, a misspelling of hoverStyleTexts, so
the state carries both properties, exactly as the running object does. -/
structure TextState : Type where
  dpr : ℚ
  mapRef : ℕ
  data : List TextItem
  onClick : Option ℕ
  onMouseOut : Option ℕ
  onMouseOver : Option ℕ
  hoverTexts : List TextItem
  hoverStyleTexts : List TextItem
  hoverStyleTtexts : List TextItem
  customLayer : Option ℕ
deriving DecidableEq, Repr

namespace Text

/-- Text.handleMouseHoverStyle (src Text index.js lines 264 to 291): when any
of onClick, onMouseOver and onMouseOut is a function, look up the texts
under the pointer; switch the map cursor to pointer when hoverStyleTexts is
empty and the new list is not, restore the map default cursor when
hoverStyleTexts is non-empty and the new list is empty; line 289 then
assigns the new list to this.hoverStyleTtexts, not to this.hoverStyleTexts,
so the set the comparisons read is never updated. -/
def handleMouseHoverStyle (s : TextState) (found : List TextItem) :
    List CursorEffect × TextState × Bool :=
  if s.onClick.isSome || s.onMouseOver.isSome || s.onMouseOut.isSome then
    let toPointer : List CursorEffect :=
      if s.hoverStyleTexts.length = 0 ∧ found.length > 0 then
        [CursorEffect.setPointer]
      else []
    let toDefault : List CursorEffect :=
      if s.hoverStyleTexts.length > 0 ∧ found.length = 0 then
        [CursorEffect.setDefault]
      else []
    (toPointer ++ toDefault, { s with hoverStyleTtexts := found }, true)
  else
    ([], s, false)

/-- The per-item body of the data map inside Text.internalRender (src Text
index.js lines 366 to 389): identical in shape to Marker's, position having
priority over location and the transform invoked only for items without a
position. -/
def processItem (proj : Projection) (item : TextItem) :
    Except String (TextItem × ℕ) :=
  match item.position with
  | some _ => Except.ok (item, 0)
  | none =>
    match item.location with
    | some loc =>
        Except.ok ({ item with position := some (coordinateTransformation proj loc) }, 1)
    | none => Except.error "TypeError: cannot destructure undefined coordinates"

end Text

/-- Instance state of the current Line adapter revision (packed in src Marker
index.js after the second separator), restricted to what teardown touches. -/
structure LineState : Type where
  dpr : ℚ
  mapRef : ℕ
  customLayer : Option ℕ
deriving DecidableEq, Repr

namespace Line

/-- The map events hooked by Line's constructor (src Marker index.js lines
986 to 994): click, mousemove, then the drag and touch boundary events. -/
def constructorOns : List MapEvent :=
  [MapEvent.click, MapEvent.mousemove, MapEvent.dragend, MapEvent.dragstart,
    MapEvent.touchend, MapEvent.touchstart]

/-- Line.destroy (src Marker index.js lines 1091 to 1106): detach the custom
layer, guarded by a presence check for the asynchronous AMap CustomLayer
load, then unhook the six handlers in the source's alphabetical order. -/
def destroy (s : LineState) : Except String (List TeardownEffect × LineState) := do
  let detach ←
    if s.customLayer.isSome then do
      let _ ← Marker.layerSetMapNull s.customLayer
      pure [TeardownEffect.detachLayer]
    else
      pure []
  pure (detach ++
    [TeardownEffect.off MapEvent.click, TeardownEffect.off MapEvent.dragend,
      TeardownEffect.off MapEvent.dragstart, TeardownEffect.off MapEvent.mousemove,
      TeardownEffect.off MapEvent.touchend, TeardownEffect.off MapEvent.touchstart], s)

end Line

/-- C1: for every pointer move, when at least one of onMouseOver and
onMouseOut is registered, Marker.handleMouseHover performs the position
lookup and fires exactly the callback invocations prescribed by the spec's
hover-set-size-delta classification (mouse-over when the new set is strictly
larger, mouse-out when strictly smaller, mouse-out then mouse-over when the
sizes are equal but the contents differ, nothing when identical; every
invocation guarded by its callback's presence and carrying the new set),
and stores the new set; when neither hover callback is registered the
lookup is not performed, nothing fires and the state is unchanged. -/
theorem claim_C1_hover_relay (s : MarkerState) (found : List MarkerItem) :
    Marker.handleMouseHover s found =
      if s.onMouseOver.isSome || s.onMouseOut.isSome then
        (specHoverEvents s.onMouseOver.isSome s.onMouseOut.isSome found
            (specHoverClass s.hoverMarkers found),
          { s with hoverMarkers := found }, true)
      else ([], s, false) := by
  simp only [Marker.handleMouseHover, specHoverClass, specHoverEvents]
  split_ifs <;> simp_all

/-- C3: reconfiguration is a full replace of the mutable options: after any
config call on the Marker or Grid adapter, the stored dataset, the stored
callbacks and the stored size equal those of the supplied props with omitted
fields at their documented defaults (empty dataset, zero size, no callback),
independent of the state before the call, while the host map reference (and
for Marker the construction-time dpr) is left unchanged. -/
theorem claim_C3_config_full_replace (s : MarkerState) (p : MarkerProps)
    (g : GridState) (q : GridProps) :
    ((Marker.config s p).data = p.data.getD [] ∧
      (Marker.config s p).onClick = p.onClick ∧
      (Marker.config s p).onDoubleClick = p.onDoubleClick ∧
      (Marker.config s p).onMouseOut = p.onMouseOut ∧
      (Marker.config s p).onMouseOver = p.onMouseOver ∧
      (Marker.config s p).canvas.height = p.height.getD 0 * s.dpr ∧
      (Marker.config s p).canvas.width = p.width.getD 0 * s.dpr ∧
      (Marker.config s p).mapRef = s.mapRef ∧
      (Marker.config s p).dpr = s.dpr) ∧
    ((Grid.config g q).data = q.data.getD [] ∧
      (Grid.config g q).onClick = q.onClick ∧
      (Grid.config g q).onMouseOut = q.onMouseOut ∧
      (Grid.config g q).onMouseOver = q.onMouseOver ∧
      (Grid.config g q).heightField = some (q.height.getD 0) ∧
      (Grid.config g q).widthField = some (q.width.getD 0) ∧
      (Grid.config g q).mapRef = g.mapRef) := by
  constructor
  · simp only [Marker.config, Canvas.setBackingHeight, Canvas.setBackingWidth,
      Canvas.setStyleHeight, Canvas.setStyleWidth]
    split_ifs <;> simp_all
  · simp only [Grid.config, Canvas.setStyleHeight, Canvas.setStyleWidth]
    split_ifs <;> simp_all

/-- C5: on a click or double click against the spec-modelled findByPosition
lookup, the corresponding callback is invoked exactly when it is registered
and the matched list is non-empty, with the matched list passed verbatim;
a click matching zero items never invokes the callback; and the matched
list is a subsequence of the reversed dataset, items appearing later in the
configured dataset reported first. -/
theorem claim_C5_click_relay (s : MarkerState) (g : GridState)
    (hit : MarkerItem → Pos → Bool) (data : List MarkerItem) (pixel : Pos)
    (gfound : List GridItem) :
    ((Marker.handleClick s (findByPosition hit data pixel)).1 =
      if s.onClick.isSome ∧ findByPosition hit data pixel ≠ [] then
        some (findByPosition hit data pixel)
      else none) ∧
    ((Marker.handleDoubleClick s (findByPosition hit data pixel)).1 =
      if s.onDoubleClick.isSome ∧ findByPosition hit data pixel ≠ [] then
        some (findByPosition hit data pixel)
      else none) ∧
    List.Sublist (findByPosition hit data pixel) data.reverse ∧
    ((Grid.handleClick g gfound).1 =
      if g.onClick.isSome ∧ gfound ≠ [] then some gfound else none) := by
  refine ⟨?_, ?_, ?_, ?_⟩
  · simp only [Marker.handleClick]
    split_ifs <;> simp_all
  · simp only [Marker.handleDoubleClick]
    split_ifs <;> simp_all
  · have h : findByPosition hit data pixel =
        data.reverse.filter (fun item => hit item pixel) := by
      simp [findByPosition, List.filter_reverse]
    rw [h]
    exact List.filter_sublist _
  · simp only [Grid.handleClick]
    split_ifs <;> simp_all

/-- Helper: a successful processItem performs one coordinate transform for a
position-less item and none for an item with an explicit position. -/
theorem Marker.processItem_count (proj : Projection) (item : MarkerItem)
    (val : MarkerItem × ℕ) (h : Marker.processItem proj item = Except.ok val) :
    val.2 = if item.position.isNone then 1 else 0 := by
  unfold Marker.processItem at h
  cases hp : item.position with
  | some p =>
    rw [hp] at h
    simp only [Except.ok.injEq] at h
    subst h
    simp [hp]
  | none =>
    rw [hp] at h
    cases hl : item.location with
    | some loc =>
      rw [hl] at h
      simp only [Except.ok.injEq] at h
      subst h
      simp [hp]
    | none => rw [hl] at h; simp_all

/-- Helper: a successful processData invokes the coordinate transform exactly
once per position-less item in the dataset. -/
theorem Marker.processData_count (proj : Projection) :
    ∀ (data : List MarkerItem) (out : List MarkerItem × ℕ),
      Marker.processData proj data = Except.ok out →
      out.2 = (data.filter (fun it => it.position.isNone)).length := by
  intro data
  induction data with
  | nil =>
    intro out h
    simp only [Marker.processData] at h
    cases h
    simp
  | cons item rest ih =>
    intro out h
    simp only [Marker.processData, bind, Except.bind] at h
    cases hpi : Marker.processItem proj item with
    | error e => rw [hpi] at h; simp at h
    | ok val =>
      rw [hpi] at h
      cases hpd : Marker.processData proj rest with
      | error e => rw [hpd] at h; simp at h
      | ok tailOut =>
        rw [hpd] at h
        simp only [pure, Except.pure, Except.ok.injEq] at h
        have hv := Marker.processItem_count proj item val hpi
        have ht := ih tailOut hpd
        subst h
        simp only [List.filter_cons]
        cases hp : item.position.isNone <;> (simp_all; try omega)

/-- C2: per dataset item and render, an item carrying an explicit pixel
position is passed through verbatim with the coordinate transform never
invoked for it, while an item carrying only a geographic location has the
transform invoked and its result stored as the item's position; over a whole
dataset a successful render invokes the transform exactly once per
position-less item. Stated for Marker and Text, the two adapters with the
position-priority rule. -/
theorem claim_C2_position_priority (proj : Projection) (item : MarkerItem)
    (titem : TextItem) :
    (∀ p, item.position = some p → Marker.processItem proj item = Except.ok (item, 0)) ∧
    (∀ loc, item.position = none → item.location = some loc →
      Marker.processItem proj item =
        Except.ok ({ item with position := some (coordinateTransformation proj loc) }, 1)) ∧
    (∀ p, titem.position = some p → Text.processItem proj titem = Except.ok (titem, 0)) ∧
    (∀ loc, titem.position = none → titem.location = some loc →
      Text.processItem proj titem =
        Except.ok ({ titem with position := some (coordinateTransformation proj loc) }, 1)) ∧
    (∀ (data : List MarkerItem) (out : List MarkerItem × ℕ),
      Marker.processData proj data = Except.ok out →
      out.2 = (data.filter (fun it => it.position.isNone)).length) := by
  refine ⟨?_, ?_, ?_, ?_, Marker.processData_count proj⟩
  · intro p hp
    simp [Marker.processItem, hp]
  · intro loc hp hl
    simp [Marker.processItem, hp, hl]
  · intro p hp
    simp [Text.processItem, hp]
  · intro loc hp hl
    simp [Text.processItem, hp, hl]

/-- The identity projection, used for concrete witness evaluations. -/
def projId : Projection := fun lng lat => (lng, lat)

/-- A marker item carrying both a location and an explicit position. -/
def itemWithPos : MarkerItem :=
  { id := 0, location := some (Coord.arr 5 6), position := some (3, 4) }

/-- A marker item carrying only a geographic location. -/
def itemWithLoc : MarkerItem :=
  { id := 1, location := some (Coord.obj 5 6), position := none }

/-- A text item carrying an explicit position. -/
def titemWithPos : TextItem :=
  { id := 2, location := none, position := some (7, 8) }

/-- A text item carrying only a geographic location. -/
def titemWithLoc : TextItem :=
  { id := 3, location := some (Coord.arr 1 2), position := none }

/-- Witness for C2, at concrete items and the identity projection. -/
theorem claim_C2_position_priority_witness :
    (Marker.processItem projId itemWithPos = Except.ok (itemWithPos, 0)) ∧
    (Marker.processItem projId itemWithLoc =
      Except.ok ({ itemWithLoc with position := some ((5 : ℚ), (6 : ℚ)) }, 1)) ∧
    (Text.processItem projId titemWithPos = Except.ok (titemWithPos, 0)) ∧
    (Text.processItem projId titemWithLoc =
      Except.ok ({ titemWithLoc with position := some ((1 : ℚ), (2 : ℚ)) }, 1)) ∧
    ((1 : ℕ) = ([itemWithPos, itemWithLoc].filter (fun it => it.position.isNone)).length) :=
  ⟨(claim_C2_position_priority projId itemWithPos titemWithPos).1 (3, 4) rfl,
    (claim_C2_position_priority projId itemWithLoc titemWithPos).2.1
      (Coord.obj 5 6) rfl rfl,
    (claim_C2_position_priority projId itemWithPos titemWithPos).2.2.1 (7, 8) rfl,
    (claim_C2_position_priority projId itemWithPos titemWithLoc).2.2.2.1
      (Coord.arr 1 2) rfl rfl,
    (claim_C2_position_priority projId itemWithPos titemWithPos).2.2.2.2
      [itemWithPos, itemWithLoc]
      ([itemWithPos, { itemWithLoc with position := some ((5 : ℚ), (6 : ℚ)) }], 1)
      (by rfl)⟩

/-- Reconfiguration props with a 100 by 100 size, used to exercise the
resize logic concretely. -/
def propsHW100 : MarkerProps := { height := some 100, width := some 100 }

/-- The current-revision Marker state reached by constructing with dpr 1 and
a 100 by 100 size: one backing-store assignment per dimension so far. -/
def markerAfter100 : MarkerState :=
  { dpr := 1, mapRef := 0
    canvas := { width := 100, height := 100, styleWidth := some 100
                styleHeight := some 100, widthAssignments := 1, heightAssignments := 1 }
    data := [], onClick := none, onDoubleClick := none, onMouseOut := none
    onMouseOver := none, hoverMarkers := [], hoverStyleMarkers := [], customLayer := none }

/-- C4: evaluation at the failing input. In the earlier Marker revision the
config comparison reads this.height and this.width, which no method of that
revision ever assigns, so two consecutive config calls with the identical
100 by 100 size reassign (reallocate) the canvas backing dimensions on both
calls, not at most once; in the current revision, which compares against the
canvas's stored dimension, the second identical call performs no further
backing-store assignment. -/
theorem claim_C4_legacy_reallocates_every_call :
    ((MarkerLegacy.config (MarkerLegacy.config (MarkerLegacy.initial 0) propsHW100)
        propsHW100).canvas.heightAssignments = 2 ∧
      (MarkerLegacy.config (MarkerLegacy.config (MarkerLegacy.initial 0) propsHW100)
        propsHW100).canvas.widthAssignments = 2) ∧
    ((Marker.config ((Marker.construct (some 1) 0 propsHW100).1) propsHW100).canvas.heightAssignments =
        ((Marker.construct (some 1) 0 propsHW100).1).canvas.heightAssignments ∧
      (Marker.config ((Marker.construct (some 1) 0 propsHW100).1) propsHW100).canvas.widthAssignments =
        ((Marker.construct (some 1) 0 propsHW100).1).canvas.widthAssignments ∧
      ((Marker.construct (some 1) 0 propsHW100).1).canvas.heightAssignments = 1) := by
  have h1 : (Marker.construct (some 1) 0 propsHW100).1 = markerAfter100 := by
    norm_num [Marker.construct, Marker.config, propsHW100, getDPR, Canvas.create,
      Canvas.setBackingHeight, Canvas.setBackingWidth, Canvas.setStyleHeight,
      Canvas.setStyleWidth, markerAfter100]
  have h2 : Marker.config markerAfter100 propsHW100 = markerAfter100 := by
    norm_num [Marker.config, propsHW100, markerAfter100, Canvas.setBackingHeight,
      Canvas.setBackingWidth, Canvas.setStyleHeight, Canvas.setStyleWidth]
  refine ⟨by decide, ?_⟩
  rw [h1, h2]
  exact ⟨rfl, rfl, rfl⟩

/-- A text item at a fixed pixel position, for the C6 evaluation. -/
def textItemEx : TextItem := { id := 0, location := none, position := some (1, 1) }

/-- A Text adapter state with an onClick callback registered and nothing
hovered yet, as after construction. -/
def textStateEx : TextState :=
  { dpr := 1, mapRef := 0, data := [textItemEx], onClick := some 0
    onMouseOut := none, onMouseOver := none, hoverTexts := []
    hoverStyleTexts := [], hoverStyleTtexts := [], customLayer := none }

/-- C6: evaluation at the failing input for the Text adapter. With onClick
registered, a pointer move onto a text sets the pointer cursor, but the
tracked cursor-styling set hoverStyleTexts is left empty because line 289 of
src Text index.js assigns the lookup result to the misspelled property
hoverStyleTtexts; consequently a following pointer move off every text emits
no cursor restore (the claimed non-empty to empty transition never fires)
and a repeated move over the text emits the pointer switch again. -/
theorem claim_C6_text_style_set_never_updated :
    (Text.handleMouseHoverStyle textStateEx [textItemEx]).1 = [CursorEffect.setPointer] ∧
    ((Text.handleMouseHoverStyle textStateEx [textItemEx]).2.1).hoverStyleTexts = [] ∧
    ((Text.handleMouseHoverStyle textStateEx [textItemEx]).2.1).hoverStyleTtexts = [textItemEx] ∧
    (Text.handleMouseHoverStyle ((Text.handleMouseHoverStyle textStateEx [textItemEx]).2.1) []).1 = [] ∧
    (Text.handleMouseHoverStyle ((Text.handleMouseHoverStyle textStateEx [textItemEx]).2.1)
      [textItemEx]).1 = [CursorEffect.setPointer] := by
  refine ⟨rfl, rfl, rfl, rfl, rfl⟩

/-- Helper: closed form of Marker.destroy for any state. -/
theorem markerDestroy_eq (s : MarkerState) :
    Marker.destroy s = Except.ok
      ((if s.customLayer.isSome then [TeardownEffect.detachLayer] else []) ++
        Marker.constructorOns.map TeardownEffect.off, s) := by
  cases hc : s.customLayer <;>
    simp [Marker.destroy, Marker.layerSetMapNull, Marker.constructorOns, hc, bind,
      Except.bind, pure, Except.pure]

/-- Helper: closed form of Line.destroy for any state. -/
theorem lineDestroy_eq (l : LineState) :
    Line.destroy l = Except.ok
      ((if l.customLayer.isSome then [TeardownEffect.detachLayer] else []) ++
        [TeardownEffect.off MapEvent.click, TeardownEffect.off MapEvent.dragend,
          TeardownEffect.off MapEvent.dragstart, TeardownEffect.off MapEvent.mousemove,
          TeardownEffect.off MapEvent.touchend, TeardownEffect.off MapEvent.touchstart], l) := by
  cases hc : l.customLayer <;>
    simp [Line.destroy, Marker.layerSetMapNull, hc, bind, Except.bind, pure, Except.pure]

/-- C7: teardown emits the layer detach exactly when the asynchronously
created custom layer exists (the presence guard makes destroy-before-init a
no-op on the layer, with no exception), unhooks precisely the map listeners
the constructor registered (for Line in a different order, hence stated up
to permutation), and leaves the adapter state unchanged. Stated for Marker
and for the current Line revision. -/
theorem claim_C7_destroy_guard_and_offs (s : MarkerState) (l : LineState) :
    (Marker.destroy s = Except.ok
      ((if s.customLayer.isSome then [TeardownEffect.detachLayer] else []) ++
        Marker.constructorOns.map TeardownEffect.off, s)) ∧
    (Line.destroy l = Except.ok
      ((if l.customLayer.isSome then [TeardownEffect.detachLayer] else []) ++
        [TeardownEffect.off MapEvent.click, TeardownEffect.off MapEvent.dragend,
          TeardownEffect.off MapEvent.dragstart, TeardownEffect.off MapEvent.mousemove,
          TeardownEffect.off MapEvent.touchend, TeardownEffect.off MapEvent.touchstart], l)) ∧
    List.Perm
      [MapEvent.click, MapEvent.dragend, MapEvent.dragstart, MapEvent.mousemove,
        MapEvent.touchend, MapEvent.touchstart]
      Line.constructorOns :=
  ⟨markerDestroy_eq s, lineDestroy_eq l, by decide⟩

/-- Helper: internalRender never changes the dragging flag. -/
theorem Grid.internalRender_isDragging (s : GridState) (proj : Projection) (view : MapView) :
    ((Grid.internalRender s proj view).1).isDragging = s.isDragging := by
  unfold Grid.internalRender
  split_ifs <;> simp_all
  all_goals (split <;> simp_all)

/-- Helper: after any event sequence the stored dragging flag equals the
gesture activity derived from the sequence. -/
theorem Grid.stateAfter_isDragging (proj : Projection) :
    ∀ (evs : List GridEvent) (s : GridState),
      (Grid.stateAfter proj s evs).isDragging = dragActive s.isDragging evs := by
  intro evs
  induction evs with
  | nil => intro s; rfl
  | cons e es ih =>
    intro s
    cases e with
    | dragStart =>
      simpa [Grid.stateAfter, Grid.step, Grid.handleDragStart, dragActive] using ih _
    | touchStart =>
      simpa [Grid.stateAfter, Grid.step, Grid.handleDragStart, dragActive] using ih _
    | dragEnd =>
      simpa [Grid.stateAfter, Grid.step, Grid.handleDragEnd, dragActive] using ih _
    | touchEnd =>
      simpa [Grid.stateAfter, Grid.step, Grid.handleDragEnd, dragActive] using ih _
    | render view =>
      have h := Grid.internalRender_isDragging s proj view
      simp only [Grid.stateAfter, Grid.step, dragActive]
      rw [ih, h]

/-- Helper: stateAfter distributes over appended event sequences. -/
theorem Grid.stateAfter_append (proj : Projection) :
    ∀ (xs ys : List GridEvent) (s : GridState),
      Grid.stateAfter proj s (xs ++ ys) =
        Grid.stateAfter proj (Grid.stateAfter proj s xs) ys := by
  intro xs
  induction xs with
  | nil => intro ys s; rfl
  | cons e es ih =>
    intro ys s
    simp only [List.cons_append, Grid.stateAfter]
    exact ih ys _

/-- C8: in every state reachable by a host-map event sequence after which a
drag or touch gesture is active, a render invocation returns immediately,
leaving the state unchanged and emitting no effect (no primitive
configuration, no draw); with the flag clear a render does emit its draw;
and a drag-end or touch-end event always clears the flag, so rendering
resumes only after the gesture ends. -/
theorem claim_C8_drag_suppresses_render (proj : Projection) (s : GridState)
    (pre : List GridEvent) (view : MapView) :
    (dragActive s.isDragging pre = true →
      Grid.step proj (Grid.stateAfter proj s pre) (GridEvent.render view) =
        (Grid.stateAfter proj s pre, [])) ∧
    (s.isDragging = false → GridEffect.draw ∈ (Grid.internalRender s proj view).2) ∧
    (Grid.stateAfter proj s (pre ++ [GridEvent.dragEnd])).isDragging = false ∧
    (Grid.stateAfter proj s (pre ++ [GridEvent.touchEnd])).isDragging = false := by
  refine ⟨?_, ?_, ?_, ?_⟩
  · intro h
    have hd : (Grid.stateAfter proj s pre).isDragging = true := by
      rw [Grid.stateAfter_isDragging]; exact h
    simp [Grid.step, Grid.internalRender, hd]
  · intro h
    simp only [Grid.internalRender, h, if_false, Bool.false_eq_true]
    split_ifs <;> simp
  · rw [Grid.stateAfter_append]
    rfl
  · rw [Grid.stateAfter_append]
    rfl

/-- A Grid adapter state as after construction: flag clear, nothing
memorised yet. -/
def gridStateEx : GridState :=
  { dpr := 1, mapRef := 0, canvas := Canvas.create, daemonCanvas := Canvas.create
    data := [], onClick := none, onMouseOut := none, onMouseOver := none
    hoverGrids := [], hoverStyleGrids := [], heightField := none, widthField := none
    isDragging := false, previousCenter := none, previousZoom := none, customLayer := none }

/-- A concrete map view for witness evaluations. -/
def viewEx : MapView := { centerLng := 0, centerLat := 0, zoom := 10 }

/-- Witness for C8: after a dragstart event a render is a no-op, and on the
same state with the flag clear a render emits its draw. -/
theorem claim_C8_drag_suppresses_render_witness :
    Grid.step projId (Grid.stateAfter projId gridStateEx [GridEvent.dragStart])
        (GridEvent.render viewEx) =
      (Grid.stateAfter projId gridStateEx [GridEvent.dragStart], []) ∧
    GridEffect.draw ∈ (Grid.internalRender gridStateEx projId viewEx).2 :=
  ⟨(claim_C8_drag_suppresses_render projId gridStateEx [GridEvent.dragStart] viewEx).1 rfl,
    (claim_C8_drag_suppresses_render projId gridStateEx [GridEvent.dragStart] viewEx).2.1 rfl⟩

/-- C9: the device pixel ratio is read from the environment exactly once, at
construction, through getDPR with its documented default of 1 when the
environment value is absent, and every subsequent operation of the embedding
(reconfiguration, render, pointer-event handling, teardown) preserves the
stored dpr; none of these operations even receives the environment value. -/
theorem claim_C9_dpr_read_once (env : Option ℚ) (mapRef : ℕ) (p : MarkerProps) :
    ((Marker.construct env mapRef p).1.dpr = getDPR env) ∧
    getDPR none = 1 ∧
    (∀ (s : MarkerState) (q : MarkerProps), (Marker.config s q).dpr = s.dpr) ∧
    (∀ (s : MarkerState) (found : List MarkerItem),
      ((Marker.handleMouseHover s found).2.1).dpr = s.dpr) ∧
    (∀ (s : MarkerState) (found : List MarkerItem),
      ((Marker.handleMouseHoverStyle s found).2.1).dpr = s.dpr) ∧
    (∀ (s : MarkerState) (proj : Projection) (out : MarkerState × List MarkerItem × ℕ),
      Marker.internalRender s proj = Except.ok out → out.1.dpr = s.dpr) ∧
    (∀ (s : MarkerState) (out : List TeardownEffect × MarkerState),
      Marker.destroy s = Except.ok out → out.2.dpr = s.dpr) := by
  have hconfig : ∀ (s : MarkerState) (q : MarkerProps), (Marker.config s q).dpr = s.dpr := by
    intro s q
    simp only [Marker.config]
    split_ifs <;> rfl
  refine ⟨hconfig _ _, rfl, hconfig, ?_, ?_, ?_, ?_⟩
  · intro s found
    simp only [Marker.handleMouseHover]
    split_ifs <;> rfl
  · intro s found
    simp only [Marker.handleMouseHoverStyle]
    split_ifs <;> rfl
  · intro s proj out h
    unfold Marker.internalRender at h
    simp only [bind, Except.bind] at h
    cases hpd : Marker.processData proj s.data with
    | error e => rw [hpd] at h; simp at h
    | ok v =>
      rw [hpd] at h
      simp only [pure, Except.pure, Except.ok.injEq] at h
      subst h
      rfl
  · intro s out h
    rw [markerDestroy_eq s] at h
    simp only [Except.ok.injEq] at h
    subst h
    rfl

/-- Witness for C9: the construction-time read, the absent-value default,
and the render and teardown preservations at a concrete state. -/
theorem claim_C9_dpr_read_once_witness :
    ((Marker.construct (some 2) 0 propsHW100).1.dpr = getDPR (some 2)) ∧
    getDPR none = 1 ∧
    (({ markerAfter100 with
        canvas := markerAfter100.canvas.setBackingWidth markerAfter100.canvas.width },
        ([] : List MarkerItem), (0 : ℕ)).1.dpr = markerAfter100.dpr) ∧
    (([TeardownEffect.off MapEvent.click, TeardownEffect.off MapEvent.dblclick,
        TeardownEffect.off MapEvent.mousemove], markerAfter100).2.dpr = markerAfter100.dpr) :=
  ⟨(claim_C9_dpr_read_once (some 2) 0 propsHW100).1,
    (claim_C9_dpr_read_once (some 2) 0 propsHW100).2.1,
    (claim_C9_dpr_read_once (some 2) 0 propsHW100).2.2.2.2.2.1 markerAfter100 projId
      ({ markerAfter100 with
          canvas := markerAfter100.canvas.setBackingWidth markerAfter100.canvas.width },
        ([] : List MarkerItem), (0 : ℕ)) rfl,
    (claim_C9_dpr_read_once (some 2) 0 propsHW100).2.2.2.2.2.2 markerAfter100
      ([TeardownEffect.off MapEvent.click, TeardownEffect.off MapEvent.dblclick,
        TeardownEffect.off MapEvent.mousemove], markerAfter100) rfl⟩

/-- C10: every Marker config call, including the one the constructor makes
and the one render makes when given props, resets both the previous hover
set and the previous cursor-styling hover set to empty, so the next pointer
move over a non-empty lookup result is classified as a mouse-over (when
onMouseOver is registered by the new props) and triggers the pointer-cursor
switch (when any relevant callback is registered by the new props). -/
theorem claim_C10_config_resets_hover_state (s : MarkerState) (p : MarkerProps)
    (env : Option ℚ) (mapRef : ℕ) (proj : Projection) (found : List MarkerItem) :
    ((Marker.config s p).hoverMarkers = [] ∧ (Marker.config s p).hoverStyleMarkers = []) ∧
    ((Marker.construct env mapRef p).1.hoverMarkers = [] ∧
      (Marker.construct env mapRef p).1.hoverStyleMarkers = []) ∧
    (∀ out, Marker.render s (some p) proj = Except.ok out →
      out.1.hoverMarkers = [] ∧ out.1.hoverStyleMarkers = []) ∧
    (p.onMouseOver.isSome = true → found ≠ [] →
      (Marker.handleMouseHover (Marker.config s p) found).1 = [HoverEvent.mouseOver found]) ∧
    ((p.onClick.isSome || p.onDoubleClick.isSome ||
        p.onMouseOver.isSome || p.onMouseOut.isSome) = true →
      found ≠ [] →
      (Marker.handleMouseHoverStyle (Marker.config s p) found).1 = [CursorEffect.setPointer]) := by
  have hreset : ∀ (t : MarkerState) (q : MarkerProps),
      (Marker.config t q).hoverMarkers = [] ∧ (Marker.config t q).hoverStyleMarkers = [] := by
    intro t q
    simp only [Marker.config]
    split_ifs <;> exact ⟨rfl, rfl⟩
  have hcb : ∀ (t : MarkerState) (q : MarkerProps),
      (Marker.config t q).onClick = q.onClick ∧
      (Marker.config t q).onDoubleClick = q.onDoubleClick ∧
      (Marker.config t q).onMouseOut = q.onMouseOut ∧
      (Marker.config t q).onMouseOver = q.onMouseOver := by
    intro t q
    simp only [Marker.config]
    split_ifs <;> exact ⟨rfl, rfl, rfl, rfl⟩
  refine ⟨hreset s p, hreset _ p, ?_, ?_, ?_⟩
  · intro out h
    unfold Marker.render Marker.internalRender at h
    simp only [bind, Except.bind] at h
    cases hpd : Marker.processData proj (Marker.config s p).data with
    | error e => rw [hpd] at h; simp at h
    | ok v =>
      rw [hpd] at h
      simp only [pure, Except.pure, Except.ok.injEq] at h
      subst h
      exact hreset s p
  · intro hover hfound
    have h1 := (hreset s p).1
    have h2 := (hcb s p).2.2.2
    unfold Marker.handleMouseHover
    rw [h1, h2, hover]
    have hlen : 0 < found.length := List.length_pos.mpr hfound
    simp [hlen]
  · intro hany hfound
    have h1 := (hreset s p).2
    have hc := hcb s p
    unfold Marker.handleMouseHoverStyle
    rw [h1, hc.1, hc.2.1, hc.2.2.1, hc.2.2.2, hany]
    have hlen : 0 < found.length := List.length_pos.mpr hfound
    simp [hlen]

/-- A Marker state with a zero-size canvas and nothing registered, used as
the starting point of the C10 witness. -/
def markerZero : MarkerState :=
  { dpr := 1, mapRef := 0
    canvas := { width := 0, height := 0, styleWidth := some 0, styleHeight := some 0
                widthAssignments := 0, heightAssignments := 0 }
    data := [], onClick := none, onDoubleClick := none, onMouseOut := none
    onMouseOver := none, hoverMarkers := [], hoverStyleMarkers := [], customLayer := none }

/-- Reconfiguration props registering only an onMouseOver callback. -/
def propsOver : MarkerProps := { onMouseOver := some 1 }

/-- The state produced by rendering markerZero with propsOver: the callback
is installed and the clearing self-assignment bumped the width counter. -/
def markerZeroRendered : MarkerState :=
  { markerZero with
    onMouseOver := some 1
    canvas := markerZero.canvas.setBackingWidth markerZero.canvas.width }

/-- Witness for C10 at a concrete state, props and lookup result. -/
theorem claim_C10_config_resets_hover_state_witness :
    ((Marker.config markerZero propsOver).hoverMarkers = [] ∧
      (Marker.config markerZero propsOver).hoverStyleMarkers = []) ∧
    ((Marker.handleMouseHover (Marker.config markerZero propsOver) [itemWithPos]).1 =
      [HoverEvent.mouseOver [itemWithPos]]) ∧
    ((Marker.handleMouseHoverStyle (Marker.config markerZero propsOver) [itemWithPos]).1 =
      [CursorEffect.setPointer]) ∧
    ((markerZeroRendered, ([] : List MarkerItem), (0 : ℕ)).1.hoverMarkers = []) :=
  ⟨(claim_C10_config_resets_hover_state markerZero propsOver none 0 projId [itemWithPos]).1,
    (claim_C10_config_resets_hover_state markerZero propsOver none 0 projId [itemWithPos]).2.2.2.1
      rfl (by simp),
    (claim_C10_config_resets_hover_state markerZero propsOver none 0 projId [itemWithPos]).2.2.2.2
      rfl (by simp),
    ((claim_C10_config_resets_hover_state markerZero propsOver none 0 projId [itemWithPos]).2.2.1
      (markerZeroRendered, ([] : List MarkerItem), (0 : ℕ))
      (by simp [Marker.render, Marker.internalRender, Marker.config, Marker.processData,
        markerZero, propsOver, markerZeroRendered, Canvas.setBackingWidth, bind,
        Except.bind, pure, Except.pure])).1⟩

end Amap2DRender
